import Mathlib

/-!
Shallow embedding of the `getmethatdawg` build pipeline
(`getmethatdawg-sdk/getmethatdawg/builder.py` and
`getmethatdawg-sdk/getmethatdawg/__init__.py`) together with proofs about
the endpoint-resolution and artifact-generation logic.

Strings are modelled with Lean `String` (a list of unicode characters);
the Python string methods used by the builder (`strip`, `lower`, `upper`,
`replace`, `startswith`, `in`, `split`) are embedded as executable helper
functions below.  File writes are modelled by returning the would-be file
contents; the build's exception control flow is modelled with `Except`.
-/

namespace Getmethatdawg

/-! ## Python string primitives -/

/-- Characters stripped by Python `str.strip()` with no argument. -/
def isPySpace (c : Char) : Bool :=
  c = ' ' || c = '\t' || c = '\n' || c = '\r' || c = '\x0b' || c = '\x0c'

/-- Remove characters satisfying `p` from both ends of a character list. -/
def stripList (p : Char → Bool) (l : List Char) : List Char :=
  ((l.dropWhile p).reverse.dropWhile p).reverse

/-- Python `s.strip()`. -/
def pyStrip (s : String) : String := ⟨stripList isPySpace s.data⟩

/-- Python `s.strip(c)` for a one-character strip set `c`. -/
def stripAllChar (c : Char) (s : String) : String :=
  ⟨stripList (fun x => x = c) s.data⟩

/-- Python `s.lower()` (ASCII behaviour). -/
def pyLower (s : String) : String := ⟨s.data.map Char.toLower⟩

/-- Python `s.upper()` (ASCII behaviour). -/
def pyUpper (s : String) : String := ⟨s.data.map Char.toUpper⟩

/-- Python `s.replace('_', '-')`, as used for path and app-name derivation. -/
def underscoreToHyphen (s : String) : String :=
  ⟨s.data.map (fun c => if c = '_' then '-' else c)⟩

/-- Python `s.startswith(p)`. -/
def startsWithStr (s p : String) : Bool := p.data.isPrefixOf s.data

/-- Python `pat in s` on character lists (contiguous substring test). -/
def listContainsSub (p : List Char) : List Char → Bool
  | [] => p.isEmpty
  | c :: rest => p.isPrefixOf (c :: rest) || listContainsSub p rest

/-- Python `pat in s` for strings. -/
def strContains (s pat : String) : Bool := listContainsSub pat.data s.data

/-- Python `s.startswith((p1, p2, ...))`. -/
def startsWithAny (s : String) (ps : List String) : Bool :=
  ps.any (fun p => startsWithStr s p)

/-! ## `.env` parsing (`GetMeThatDawgBuilder._read_env_file`) -/

/-- The characters of `l` strictly before the first occurrence of `c`
(Python `line.split(c, 1)[0]`). -/
def charsBefore (c : Char) (l : List Char) : List Char :=
  l.takeWhile (fun x => x ≠ c)

/-- The characters of `l` strictly after the first occurrence of `c`
(Python `line.split(c, 1)[1]`, assuming `c in l`). -/
def charsAfter (c : Char) (l : List Char) : List Char :=
  (l.dropWhile (fun x => x ≠ c)).drop 1

/-- Python dict assignment `env[key] = value` on an insertion-ordered
association list: overwrite in place if the key exists, else append. -/
def assocSet : List (String × String) → String → String → List (String × String)
  | [], k, v => [(k, v)]
  | (k0, v0) :: rest, k, v =>
    if k0 = k then (k, v) :: rest else (k0, v0) :: assocSet rest k v

/-- Python `env.get(key)`. -/
def assocLookup : List (String × String) → String → Option String
  | [], _ => none
  | (k0, v0) :: rest, k => if k0 = k then some v0 else assocLookup rest k

/-- One line of `_read_env_file`'s loop body: strip the line, skip comments
and blank lines, split on the first `=`, strip whitespace and quotes, and
keep the pair only when both key and value are non-empty. Returns `none`
when the line contributes nothing to `env_vars`. -/
def parseEnvLine (raw : String) : Option (String × String) :=
  let line := pyStrip raw
  if line = "" then none
  else if startsWithStr line "#" then none
  else if line.data.contains '=' then
    let key := pyStrip ⟨charsBefore '=' line.data⟩
    let value := stripAllChar '\x27' (stripAllChar '"' (pyStrip ⟨charsAfter '=' line.data⟩))
    if key ≠ "" && value ≠ "" then some (key, value) else none
  else none

/-- `_read_env_file` restricted to the lines of the first `.env` file
found: fold the per-line parser over the file, updating `env_vars`. -/
def parseEnvFile (lines : List String) : List (String × String) :=
  lines.foldl
    (fun env raw =>
      match parseEnvLine raw with
      | some kv => assocSet env kv.1 kv.2
      | none => env)
    []

/-! ## Configuration partitioning (`_categorize_env_vars`) -/

/-- The fixed credential substrings of `_categorize_env_vars`. -/
def secretPatterns : List String :=
  ["API_KEY", "TOKEN", "SECRET", "PASSWORD", "PRIVATE_KEY", "CREDENTIAL",
   "CLIENT_SECRET", "AUTH_KEY", "ACCESS_TOKEN", "REFRESH_TOKEN"]

/-- `is_secret` for one key: some pattern occurs in `key.upper()`. -/
def isSecret (key : String) : Bool :=
  secretPatterns.any (fun p => strContains (pyUpper key) p)

/-- `_categorize_env_vars`: split the entries, preserving order, into
`(secrets, regular_env)` according to `isSecret` of the key. -/
def categorizeEnvVars : List (String × String) → List (String × String) × List (String × String)
  | [] => ([], [])
  | (k, v) :: rest =>
    let sr := categorizeEnvVars rest
    if isSecret k then ((k, v) :: sr.1, sr.2) else (sr.1, (k, v) :: sr.2)

/-! ## AST model and auto-detection
(`auto_detect_endpoints`, `_analyze_function_for_endpoint`,
`_determine_http_method_and_path`) -/

/-- The shape of `node.returns` that `_analyze_function_for_endpoint`
inspects: absent, `ast.Name`, `ast.Subscript` whose value is a name
(e.g. `Dict[str, int]`), or anything else. -/
inductive RetAnn
  | absent
  | name (id : String)
  | subscriptName (id : String)
  | otherAnn
deriving DecidableEq, Repr

/-- The data of one `ast.FunctionDef` node that the analysis consumes:
`node.name`, the names of `node.args.args` in order, the return
annotation, and the extracted leading docstring (empty when the body does
not start with a string constant). -/
structure FuncInfo where
  name : String
  argNames : List String
  ret : RetAnn
  doc : String
deriving DecidableEq, Repr

mutual

/-- A statement tree node: a `FunctionDef` with its body, or any other AST
node with the statements nested under it (class bodies, `if` bodies, ...).
`ast.walk` traverses all of these; only `FunctionDef` nodes are analysed. -/
inductive Stmt
  | funcDef (info : FuncInfo) (body : StmtList)
  | other (body : StmtList)

/-- A sequence of statement tree nodes (a module body or a block body). -/
inductive StmtList
  | nil
  | cons (head : Stmt) (tail : StmtList)

end

mutual

/-- Number of AST nodes in one statement tree. -/
def stmtSize : Stmt → Nat
  | .funcDef _ body => 1 + stmtsSize body
  | .other body => 1 + stmtsSize body

/-- Number of AST nodes in a statement sequence. -/
def stmtsSize : StmtList → Nat
  | .nil => 0
  | .cons s rest => stmtSize s + stmtsSize rest

end

/-- View a statement sequence as an ordinary list of its nodes. -/
def stmtsToList : StmtList → List Stmt
  | .nil => []
  | .cons s rest => s :: stmtsToList rest

/-- Number of AST nodes left in a traversal queue. -/
def queueSize (q : List Stmt) : Nat := (q.map stmtSize).sum

/-- Breadth-first queue traversal with explicit fuel: each step removes
one node from the queue and enqueues its children, so the queue's node
count decreases by exactly one per step and `queueSize` of the initial
queue is exactly enough fuel (`walkFuncsAux_fuel_irrelevant` below shows
the result does not depend on the fuel once it reaches that bound). -/
def walkFuncsAux : Nat → List Stmt → List FuncInfo
  | 0, _ => []
  | _, [] => []
  | fuel + 1, .funcDef i body :: rest => i :: walkFuncsAux fuel (rest ++ stmtsToList body)
  | fuel + 1, .other body :: rest => walkFuncsAux fuel (rest ++ stmtsToList body)

/-- `ast.walk`: breadth-first traversal of the module tree, collecting the
`FunctionDef` nodes in the order `ast.walk` yields them (the queue starts
with the module's top-level statements; each visited node appends its
children). -/
def walkFuncs (tree : StmtList) : List FuncInfo :=
  walkFuncsAux (queueSize (stmtsToList tree)) (stmtsToList tree)

/-- The result record of `_analyze_function_for_endpoint`. -/
structure AutoDetectedEndpoint where
  func_name : String
  path : String
  method : String
  params : List String
  return_type : String
  docstring : String
deriving DecidableEq, Repr

/-- The `skip_patterns` denylist of `_analyze_function_for_endpoint`. -/
def skipPatterns : List String :=
  ["main", "setup", "init", "test_", "validate", "parse", "format",
   "print", "log", "debug", "error", "warn"]

/-- The read-verb name fragments of rule 1 in
`_determine_http_method_and_path`. -/
def readVerbs : List String :=
  ["get", "list", "show", "find", "search", "select", "load"]

/-- The write-verb name fragments of rule 2 in
`_determine_http_method_and_path`. -/
def writeVerbs : List String :=
  ["create", "add", "save", "update", "delete", "generate", "process",
   "handle", "execute"]

/-- The return-type string extraction of `_analyze_function_for_endpoint`
(default `"Any"`). -/
def returnTypeOf : RetAnn → String
  | .absent => "Any"
  | .name id => id
  | .subscriptName id => id
  | .otherAnn => "Any"

/-- `_determine_http_method_and_path`: the fixed rule cascade mapping a
function's name, (non-`self`) argument list, return type and docstring to
`(method, path)` or to "not an endpoint" (`none`).  Every accepting
branch derives the path as `"/" + func_name.lower().replace('_', '-')`. -/
def determineMethodPath (func_name : String) (args : List String)
    (return_type : String) (docstring : String) : Option (String × String) :=
  let func_lower := pyLower func_name
  let _ := docstring
  if args.length ≤ 1 &&
      (startsWithAny func_lower readVerbs || strContains func_lower "get" ||
       strContains func_lower "search" || strContains func_lower "select") then
    some ("GET", "/" ++ underscoreToHyphen (pyLower func_name))
  else if args.length > 1 || startsWithAny func_lower writeVerbs ||
      strContains func_lower "save" || strContains func_lower "generate" ||
      strContains func_lower "process" then
    some ("POST", "/" ++ underscoreToHyphen (pyLower func_name))
  else if return_type = "Dict" || return_type = "List" || return_type = "dict" ||
      return_type = "list" || strContains return_type "Dict" then
    some (if args.length ≤ 1 then "GET" else "POST",
          "/" ++ underscoreToHyphen (pyLower func_name))
  else if args.length > 0 && func_name.length > 3 then
    some (if args.length = 1 then "GET" else "POST",
          "/" ++ underscoreToHyphen (pyLower func_name))
  else none

/-- `_analyze_function_for_endpoint`: reject names starting with `_`,
reject names containing a denylist fragment, drop a `self` argument, then
apply the method/path cascade. -/
def analyzeFunctionForEndpoint (f : FuncInfo) : Option AutoDetectedEndpoint :=
  if startsWithStr f.name "_" then none
  else if skipPatterns.any (fun p => strContains (pyLower f.name) p) then none
  else
    let args := f.argNames.filter (fun a => a ≠ "self")
    let return_type := returnTypeOf f.ret
    match determineMethodPath f.name args return_type f.doc with
    | some mp => some ⟨f.name, mp.2, mp.1, args, return_type, f.doc⟩
    | none => none

/-- `auto_detect_endpoints` on an already-parsed tree: walk all nodes and
collect the analysis results in traversal order. -/
def autoDetectEndpoints (tree : StmtList) : List AutoDetectedEndpoint :=
  (walkFuncs tree).filterMap analyzeFunctionForEndpoint

/-! ## Endpoints (`getmethatdawg/__init__.py`) -/

/-- A registered endpoint (`Endpoint` dataclass): the wrapped function is
represented by its `__name__`. -/
structure Endpoint where
  func_name : String
  method : String
  path : String
  auth : Option String
deriving DecidableEq, Repr

/-- `analyze_source`'s conversion of an auto-detected endpoint into a
registry `Endpoint` (a mock function carrying the name; no auth). -/
def toEndpoint (a : AutoDetectedEndpoint) : Endpoint :=
  ⟨a.func_name, a.method, a.path, none⟩

/-! ## Artifact renderers -/

/-- `generate_flask_app`: the template text up to `import user_module`. -/
def flaskAppHead : String :=
  "#!/usr/bin/env python3\n\"\"\"\nGenerated Flask app by getmethatdawg builder\n\"\"\"\n\nimport os\nimport sys\nimport inspect\nfrom flask import Flask, request, jsonify\nfrom pathlib import Path\n\n# Add the source directory to Python path\nsys.path.insert(0, \x27/app\x27)\n\n# Import the user\x27s module\nimport user_module\n"

/-- The `weave_init` snippet inserted when WANDB observability is on. -/
def weaveInitSnippet : String :=
  "\n# 🐝 Initialize weave for observability (getmethatdawg auto-generated)\ntry:\n    import weave\n    weave.init(\x27getmethatdawg\x27)\n    print(\"🐝 Weave observability initialized for project \x27getmethatdawg\x27\")\nexcept ImportError:\n    print(\"⚠️ Weave not available - install with: pip install weave\")\nexcept Exception as e:\n    print(f\"⚠️ Failed to initialize weave: \x7be\x7d\")\n"

/-- The template text from `app = Flask(__name__)` through
`extract_args_from_request` (trailing-whitespace lines preserved). -/
def flaskAppMid : String :=
  "\napp = Flask(__name__)\n\ndef extract_args_from_request(func, method):\n    \"\"\"Extract function arguments from HTTP request\"\"\"\n    sig = inspect.signature(func)\n    args = \x7b\x7d\n    \n    for param_name, param in sig.parameters.items():\n        if method == \x27GET\x27:\n            # Get from query parameters\n            value = request.args.get(param_name)\n        else:\n            # Get from JSON body or form data\n            if request.is_json:\n                value = request.json.get(param_name) if request.json else None\n            else:\n                value = request.form.get(param_name)\n        \n        # Use default value if not provided\n        if value is None and param.default != inspect.Parameter.empty:\n            value = param.default\n        elif value is None:\n            # Required parameter is missing\n            return None, f\"Missing required parameter: \x7bparam_name\x7d\"\n        \n        # Basic type conversion\n        if param.annotation != inspect.Parameter.empty:\n            try:\n                if param.annotation == int:\n                    value = int(value)\n                elif param.annotation == float:\n                    value = float(value)\n                elif param.annotation == bool:\n                    value = value.lower() in (\x27true\x27, \x271\x27, \x27yes\x27, \x27on\x27)\n            except (ValueError, TypeError):\n                return None, f\"Invalid type for parameter \x7bparam_name\x7d: expected \x7bparam.annotation.__name__\x7d\"\n        \n        args[param_name] = value\n    \n    return args, None\n\n"

/-- The per-endpoint `route_code` block of `generate_flask_app`. -/
def routeBlock (e : Endpoint) : String :=
  "\n@app.route(\x27" ++ e.path ++ "\x27, methods=[\x27" ++ e.method ++ "\x27])\ndef " ++
  e.func_name ++ "_route():\n    \"\"\"Route for " ++ e.func_name ++
  "\"\"\"\n    try:\n        args, error = extract_args_from_request(user_module." ++
  e.func_name ++ ", \x27" ++ e.method ++
  "\x27)\n        if error:\n            return jsonify(\x7b\"error\": error\x7d), 400\n        \n        result = user_module." ++
  e.func_name ++
  "(**args)\n        \n        # Ensure result is JSON serializable\n        if isinstance(result, dict):\n            return jsonify(result)\n        else:\n            return jsonify(\x7b\"result\": result\x7d)\n    \n    except Exception as e:\n        return jsonify(\x7b\"error\": str(e)\x7d), 500\n"

/-- The health-check route header of `generate_flask_app`. -/
def healthHead : String :=
  "\n@app.route(\x27/\x27, methods=[\x27GET\x27])\ndef health_check():\n    \"\"\"Health check endpoint\"\"\"\n    return jsonify(\x7b\n        \"status\": \"healthy\",\n        \"service\": \"getmethatdawg-deployed-app\",\n        \"endpoints\": [\n"

/-- The per-endpoint health-check entries: a comma after every entry but
the last (`comma = "," if i < len(self.endpoints) - 1 else ""`). -/
def healthEntries : List Endpoint → String
  | [] => ""
  | [e] => "            \x7b\"method\": \"" ++ e.method ++ "\", \"path\": \"" ++ e.path ++ "\"\x7d\n"
  | e :: rest =>
    "            \x7b\"method\": \"" ++ e.method ++ "\", \"path\": \"" ++ e.path ++ "\"\x7d,\n" ++
    healthEntries rest

/-- The tail of the flask-app template (health list close and `__main__`). -/
def flaskAppTail : String :=
  "        ]\n    \x7d)\n\nif __name__ == \x27__main__\x27:\n    port = int(os.environ.get(\x27PORT\x27, 5000))\n    app.run(host=\x270.0.0.0\x27, port=port, debug=False)\n"

/-- `generate_flask_app`: the full generated server entry point. -/
def generateFlaskApp (eps : List Endpoint) (wandb : Bool) : String :=
  flaskAppHead ++ (if wandb then weaveInitSnippet else "") ++ flaskAppMid ++
  String.join (eps.map routeBlock) ++ healthHead ++ healthEntries eps ++ flaskAppTail

/-- `generate_dockerfile`: the fixed image definition. -/
def dockerfileContent : String :=
  "FROM python:3.11-slim\n\nWORKDIR /app\n\n# Copy requirements and install dependencies\nCOPY requirements.txt .\nRUN pip install --no-cache-dir -r requirements.txt\n\n# Copy the source file and generated Flask app\nCOPY user_module.py .\nCOPY flask_app.py .\n\n# Expose port\nEXPOSE 5000\n\n# Run the Flask app\nCMD [\"python\", \"flask_app.py\"]\n"

/-- The characters of `s` before the first occurrence of pattern `p`
(Python `s.split(p, ...)[0]`; the whole string when `p` is absent). -/
def beforeSubList (p : List Char) : List Char → List Char
  | [] => []
  | c :: rest =>
    if !p.isEmpty && p.isPrefixOf (c :: rest) then [] else c :: beforeSubList p rest

/-- Python `s.split(pat)[0]` for strings. -/
def strBeforeSub (s pat : String) : String := ⟨beforeSubList pat.data s.data⟩

/-- Python `s.split(c)` for a one-character separator. -/
def splitListOnChar (c : Char) (l : List Char) : List (List Char) :=
  l.foldr
    (fun x acc =>
      match acc with
      | [] => if x = c then [[], []] else [[x]]
      | h :: t => if x = c then [] :: h :: t else (x :: h) :: t)
    [[]]

/-- Python `s.split(c)` returning strings. -/
def pySplitOnChar (c : Char) (s : String) : List String :=
  (splitListOnChar c s.data).map (fun l => ⟨l⟩)

/-- The essential requirements `generate_requirements` always ensures,
plus `weave` when WANDB observability is on. -/
def essentialReqs (wandb : Bool) : List String :=
  ["flask>=2.0.0", "gunicorn>=20.0.0"] ++ (if wandb then ["weave"] else [])

/-- `generate_requirements`' package-name normalisation:
`line.split('>=')[0].split('==')[0].split('<')[0].lower().strip()`. -/
def normalizePackage (line : String) : String :=
  pyStrip (pyLower (strBeforeSub (strBeforeSub (strBeforeSub line ">=") "==") "<"))

/-- `generate_requirements`: copy a caller-supplied manifest and append the
missing essential packages, or synthesize the default manifest. -/
def generateRequirements (custom : Option String) (wandb : Bool) : String :=
  match custom with
  | some customReqs =>
    let lines := pySplitOnChar '\n' (pyStrip customReqs)
    let existing :=
      (lines.filter (fun l => pyStrip l ≠ "" && !startsWithStr (pyStrip l) "#")).map
        normalizePackage
    (essentialReqs wandb).foldl
      (fun acc req =>
        if existing.contains (pyLower (strBeforeSub req ">=")) then acc
        else acc ++ "\n" ++ req)
      customReqs
  | none => String.intercalate "\n" (essentialReqs wandb)

/-- The `[env]` table of the deployment manifest as key/value pairs:
`PORT = "5000"` first, then every `regular_env` entry whose uppercased key
is not `PORT` (`generate_fly_toml`, env-section loop). -/
def envSectionPairs (regular : List (String × String)) : List (String × String) :=
  ("PORT", "5000") :: regular.filter (fun kv => !(["PORT"].contains (pyUpper kv.1)))

/-- Text form of the `[env]` table, one `  KEY = "value"` line per pair. -/
def renderEnvSection (pairs : List (String × String)) : String :=
  String.join (pairs.map (fun kv => "  " ++ kv.1 ++ " = \"" ++ kv.2 ++ "\"\n"))

/-- `generate_fly_toml`'s f-string, given the derived app name and the
rendered `[env]` section. -/
def generateFlyToml (appName envSection : String) : String :=
  "# fly.toml - Generated by getmethatdawg\napp = \"" ++ appName ++
  "\"\nprimary_region = \"iad\"\n\n[build]\n\n[env]\n" ++ envSection ++
  "\n[http_service]\n  internal_port = 5000\n  force_https = true\n  auto_stop_machines = true\n  auto_start_machines = true\n  min_machines_running = 0\n  processes = [\"app\"]\n\n[[http_service.checks]]\n  interval = \"10s\"\n  grace_period = \"5s\"\n  method = \"GET\"\n  path = \"/\"\n  protocol = \"http\"\n  timeout = \"5s\"\n  tls_skip_verify = false\n\n[[vm]]\n  memory = \x27512mb\x27\n  cpu_kind = \x27shared\x27\n  cpus = 1\n"

/-- `generate_deployment_script`'s shell-quoting of a secret value:
`value.replace("'", "'\"'\"'")`. -/
def escapeSingleQuotes (v : String) : String :=
  ⟨(v.data.map (fun c =>
      if c = '\x27' then ['\x27', '"', '\x27', '"', '\x27'] else [c])).flatten⟩

/-- `generate_deployment_script`: header, one `flyctl secrets set` staging
command per secret, then a deploy command (with a no-secrets variant of
the final message).  Note the script is generated for every build. -/
def generateDeployScript (secrets : List (String × String)) : String :=
  "#!/bin/bash\n# Auto-generated deployment script for setting secrets\nset -euo pipefail\n\necho \"🔐 Setting up secrets for deployment...\"\n\n" ++
  String.join
    (secrets.map (fun kv =>
      "flyctl secrets set " ++ kv.1 ++ "=\x27" ++ escapeSingleQuotes kv.2 ++ "\x27 --stage\n")) ++
  (if !secrets.isEmpty then
    "\necho \"✅ All secrets staged. Deploying with secrets...\"\nflyctl deploy --remote-only\n"
  else
    "\necho \"ℹ No secrets to set. Proceeding with normal deployment...\"\nflyctl deploy --remote-only\n")

/-! ## Transformed source (`copy_source_file`) -/

/-- Remove every occurrence of pattern `p`, scanning left to right, with
fuel (one unit per consumed character, so the input length is enough). -/
def removeSubAux (p : List Char) : Nat → List Char → List Char
  | 0, l => l
  | _ + 1, [] => []
  | fuel + 1, c :: rest =>
    if !p.isEmpty && p.isPrefixOf (c :: rest) then
      removeSubAux p fuel (rest.drop (p.length - 1))
    else c :: removeSubAux p fuel rest

/-- Python `s.replace(pat, '')`. -/
def removeAllSub (s pat : String) : String :=
  ⟨removeSubAux pat.data s.data.length s.data⟩

/-- `copy_source_file`'s function-name extraction from a `def` line:
`line.strip().split('(')[0].replace('def ', '')`. -/
def defLineFuncName (line : String) : String :=
  removeAllSub ⟨charsBefore '(' (pyStrip line).data⟩ "def "

/-- The injected observability decorator line, indented like the `def`
line it precedes (`' ' * indent + "@weave.op()  # ..."`). -/
def weaveDecoratorFor (line : String) : String :=
  ⟨List.replicate (line.data.takeWhile isPySpace).length ' '⟩ ++
  "@weave.op()  # 🐝 Added by getmethatdawg for observability"

/-- `copy_source_file`'s line processing: drop `getmethatdawg` imports and
`@getmethatdawg.expose` decorator lines (declarative mode only), and, when
WANDB observability is on, insert a `@weave.op()` decorator before every
non-private `def` line whose function is among the endpoints.  (The
source also sets a `skip_next_function` flag that it never reads.) -/
def transformSourceLines (lines : List String) (autoDetect wandb : Bool)
    (autoEps : List AutoDetectedEndpoint) (eps : List Endpoint) : List String :=
  (if wandb then ["import weave  # 🐝 Added by getmethatdawg for observability"] else []) ++
  (lines.map (fun line =>
    if !autoDetect &&
        (strContains line "import getmethatdawg" || strContains line "from getmethatdawg") then
      []
    else if !autoDetect && startsWithStr (pyStrip line) "@getmethatdawg.expose" then []
    else
      (if wandb && startsWithStr (pyStrip line) "def " &&
          !startsWithStr (pyStrip line) "def _" && !startsWithStr (pyStrip line) "def __" then
        let fn := defLineFuncName line
        if autoEps.any (fun a => a.func_name = fn) || eps.any (fun e => e.func_name = fn) then
          [weaveDecoratorFor line]
        else []
      else []) ++ [line])).flatten

/-! ## Build orchestration (`GetMeThatDawgBuilder.build`, `analyze_source`) -/

/-- How endpoints are discovered, with the outcome of the step the
builder does not control: in auto-detect mode, the result of `ast.parse`
(`none` models a `SyntaxError`, which `auto_detect_endpoints` catches and
turns into zero detected endpoints); in declarative mode, the result of
executing the user module (`Except.error` models an exception escaping
`exec_module`, e.g. a `SyntaxError`; `Except.ok` carries the registry the
execution populated via `@getmethatdawg.expose`). -/
inductive BuildMode
  | autoDetect (parsed : Option StmtList)
  | declarative (execResult : Except String (List Endpoint))

/-- Errors that abort the build (`RuntimeError`s and propagated
exceptions in the source). -/
inductive BuildError
  | execError (msg : String)
  | noEndpoints
deriving DecidableEq, Repr

/-- The inputs of one build invocation. -/
structure BuildInput where
  mode : BuildMode
  sourceLines : List String
  originalName : String
  envLines : List String
  osWandbApiKey : Option String
  customRequirements : Option String

/-- Python truthiness of `env.get(key)` (non-empty string). -/
def pyTruthy : Option String → Bool
  | some v => v ≠ ""
  | none => false

/-- `_is_wandb_enabled`:
`bool(env_vars.get('WANDB_API_KEY') or os.getenv('WANDB_API_KEY'))`. -/
def isWandbEnabled (inp : BuildInput) : Bool :=
  pyTruthy (assocLookup (parseEnvFile inp.envLines) "WANDB_API_KEY") ||
  pyTruthy inp.osWandbApiKey

/-- The `auto_detected_endpoints` list after `analyze_source` (empty in
declarative mode and on a caught parse error). -/
def autoEpsOf : BuildMode → List AutoDetectedEndpoint
  | .autoDetect (some tree) => autoDetectEndpoints tree
  | .autoDetect none => []
  | .declarative _ => []

/-- Whether the builder runs in auto-detect mode. -/
def isAutoMode : BuildMode → Bool
  | .autoDetect _ => true
  | .declarative _ => false

/-- `analyze_source`: in auto-detect mode convert whatever was detected
(possibly nothing) into endpoints; in declarative mode propagate an
execution failure, and raise the no-endpoints `RuntimeError` when the
registry stayed empty. -/
def analyzeSource : BuildMode → Except BuildError (List Endpoint)
  | .autoDetect parsed =>
    .ok ((autoEpsOf (.autoDetect parsed)).map toEndpoint)
  | .declarative (.error msg) => .error (.execError msg)
  | .declarative (.ok eps) =>
    if eps.isEmpty then .error .noEndpoints else .ok eps

/-- The contents of every file one successful build writes into the
output directory.  `secretsJson` is `generate_secrets_file`'s result: the
sensitive mapping when non-empty (the file serialises it as JSON), `none`
when no file is written. -/
structure ArtifactSet where
  userModule : String
  flaskApp : String
  dockerfile : String
  requirements : String
  secretsJson : Option (List (String × String))
  deployScript : String
  flyToml : String
deriving DecidableEq

/-- The rendering stage of `build`: everything written after
`analyze_source` succeeds (`copy_source_file`, `generate_flask_app`,
`generate_dockerfile`, `generate_requirements`, `generate_fly_toml` —
the last of which also emits the secrets file and the deployment
script). -/
def renderArtifacts (inp : BuildInput) (eps : List Endpoint) : ArtifactSet :=
  let envVars := parseEnvFile inp.envLines
  let wandb := isWandbEnabled inp
  let secrets := (categorizeEnvVars envVars).1
  let regular := (categorizeEnvVars envVars).2
  { userModule :=
      String.intercalate "\n"
        (transformSourceLines inp.sourceLines (isAutoMode inp.mode) wandb
          (autoEpsOf inp.mode) eps),
    flaskApp := generateFlaskApp eps wandb,
    dockerfile := dockerfileContent,
    requirements := generateRequirements inp.customRequirements wandb,
    secretsJson := if secrets.isEmpty then none else some secrets,
    deployScript := generateDeployScript secrets,
    flyToml :=
      generateFlyToml (underscoreToHyphen inp.originalName)
        (renderEnvSection (envSectionPairs regular)) }

/-- `build`: analyze the source, then render every artifact.  An error
raised by `analyze_source` aborts the build before any file is written. -/
def build (inp : BuildInput) : Except BuildError ArtifactSet :=
  match analyzeSource inp.mode with
  | .error e => .error e
  | .ok eps => .ok (renderArtifacts inp eps)

/-- The names of the files a build outcome writes into the output
directory, in write order (none on a failed build, since `build` raises
before its first write). -/
def writtenFiles : Except BuildError ArtifactSet → List String
  | .error _ => []
  | .ok a =>
    ["user_module.py", "flask_app.py", "Dockerfile", "requirements.txt"] ++
    (if a.secretsJson.isSome then ["secrets.json"] else []) ++
    ["deploy-with-secrets.sh", "fly.toml"]

/-! ## Concrete fixtures used in the proofs -/

/-- A parsed module with two distinct top-level functions whose names
normalise to the same path: `def get_user(id)` and `def GET_USER(id)`. -/
def dupNameTree : StmtList :=
  .cons (.funcDef ⟨"get_user", ["id"], .absent, ""⟩ .nil)
    (.cons (.funcDef ⟨"GET_USER", ["id"], .absent, ""⟩ .nil) .nil)

/-- A parsed module whose only top-level function `outer` (public, no
arguments) contains a nested `def get_data(q)`. -/
def nestedDefTree : StmtList :=
  .cons
    (.funcDef ⟨"outer", [], .absent, ""⟩
      (.cons (.funcDef ⟨"get_data", ["q"], .absent, ""⟩ .nil) .nil))
    .nil

/-- A parsed module with the two spec scenario functions
`def get_user(id)` and `def save_order(order_id, amount)`. -/
def scenarioTree : StmtList :=
  .cons (.funcDef ⟨"get_user", ["id"], .absent, ""⟩ .nil)
    (.cons (.funcDef ⟨"save_order", ["order_id", "amount"], .absent, ""⟩ .nil) .nil)

/-- The auto-detected endpoint of `def get_user(id)`. -/
def demoGetUserEndpoint : AutoDetectedEndpoint :=
  ⟨"get_user", "/get-user", "GET", ["id"], "Any", ""⟩

/-- A declaratively registered endpoint. -/
def demoEndpoint : Endpoint := ⟨"greet", "GET", "/greet", none⟩

/-- Declarative build whose executed module registered nothing. -/
def emptyRegistryInput : BuildInput :=
  { mode := .declarative (.ok []), sourceLines := [], originalName := "my_agent",
    envLines := [], osWandbApiKey := none, customRequirements := none }

/-- Auto-detect build on a file `ast.parse` rejects (`SyntaxError`). -/
def parseErrorAutoInput : BuildInput :=
  { mode := .autoDetect none, sourceLines := ["def f(:", "    pass"],
    originalName := "my_agent", envLines := [], osWandbApiKey := none,
    customRequirements := none }

/-- Declarative build whose module execution raised a `SyntaxError`. -/
def declarativeErrorInput : BuildInput :=
  { mode := .declarative (.error "SyntaxError: invalid syntax"), sourceLines := [],
    originalName := "my_agent", envLines := [], osWandbApiKey := none,
    customRequirements := none }

/-- Declarative build with one endpoint and a `.env` holding only the
non-sensitive entry `FOO=bar`. -/
def noSecretsInput : BuildInput :=
  { mode := .declarative (.ok [demoEndpoint]),
    sourceLines := ["def greet():", "    return 1"], originalName := "my_agent",
    envLines := ["FOO=bar"], osWandbApiKey := none, customRequirements := none }

/-! ## Helper lemmas -/

theorem stmtSize_pos (s : Stmt) : 1 ≤ stmtSize s := by
  cases s <;> simp [stmtSize]

theorem queueSize_nil : queueSize [] = 0 := rfl

theorem queueSize_cons (s : Stmt) (rest : List Stmt) :
    queueSize (s :: rest) = stmtSize s + queueSize rest := by
  simp [queueSize]

theorem queueSize_append (a b : List Stmt) :
    queueSize (a ++ b) = queueSize a + queueSize b := by
  simp [queueSize]

theorem queueSize_stmtsToList : ∀ body : StmtList,
    queueSize (stmtsToList body) = stmtsSize body
  | .nil => rfl
  | .cons s rest => by
    rw [stmtsToList, queueSize_cons, queueSize_stmtsToList rest, stmtsSize]

theorem walkFuncsAux_nil (fuel : Nat) : walkFuncsAux fuel [] = [] := by
  cases fuel <;> rfl

/-- The breadth-first walk does not depend on the fuel once the fuel
reaches the number of nodes left in the queue, so `walkFuncs` is the
total breadth-first traversal (no truncation ever occurs). -/
theorem walkFuncsAux_fuel_irrelevant :
    ∀ f1 : Nat, ∀ q : List Stmt, ∀ f2 : Nat, queueSize q ≤ f1 → queueSize q ≤ f2 →
      walkFuncsAux f1 q = walkFuncsAux f2 q := by
  intro f1
  induction f1 with
  | zero =>
    intro q f2 h1 _
    cases q with
    | nil => rw [walkFuncsAux_nil, walkFuncsAux_nil]
    | cons s rest =>
      exfalso
      have := stmtSize_pos s
      rw [queueSize_cons] at h1
      omega
  | succ f1 ih =>
    intro q f2 h1 h2
    cases q with
    | nil => rw [walkFuncsAux_nil, walkFuncsAux_nil]
    | cons s rest =>
      have hs := stmtSize_pos s
      rw [queueSize_cons] at h1 h2
      cases f2 with
      | zero => exfalso; omega
      | succ f2 =>
        cases s with
        | funcDef i body =>
          have hq : queueSize (rest ++ stmtsToList body) = queueSize rest + stmtsSize body := by
            rw [queueSize_append, queueSize_stmtsToList]
          have hsz : stmtSize (Stmt.funcDef i body) = 1 + stmtsSize body := by
            simp [stmtSize]
          rw [walkFuncsAux, walkFuncsAux, ih (rest ++ stmtsToList body) f2 (by omega) (by omega)]
        | other body =>
          have hq : queueSize (rest ++ stmtsToList body) = queueSize rest + stmtsSize body := by
            rw [queueSize_append, queueSize_stmtsToList]
          have hsz : stmtSize (Stmt.other body) = 1 + stmtsSize body := by
            simp [stmtSize]
          rw [walkFuncsAux, walkFuncsAux, ih (rest ++ stmtsToList body) f2 (by omega) (by omega)]

/-- `_categorize_env_vars` is the order-preserving partition of the
entries by `isSecret` of the key. -/
theorem categorizeEnvVars_eq (env : List (String × String)) :
    categorizeEnvVars env =
      (env.filter (fun kv => isSecret kv.1), env.filter (fun kv => !isSecret kv.1)) := by
  induction env with
  | nil => rfl
  | cons kv rest ih =>
    cases kv with
    | mk k v =>
      by_cases h : isSecret k <;>
        simp [categorizeEnvVars, ih, List.filter_cons, h]

/-- Every accepting branch of `_determine_http_method_and_path` derives
the path as `"/" + func_name.lower().replace('_', '-')`. -/
theorem determineMethodPath_path {n : String} {args : List String} {rt doc m p : String}
    (h : determineMethodPath n args rt doc = some (m, p)) :
    p = "/" ++ underscoreToHyphen (pyLower n) := by
  simp only [determineMethodPath] at h
  iterate 5 (all_goals try split at h)
  all_goals simp_all

/-- Inversion for `_analyze_function_for_endpoint`: a produced endpoint
carries the function's own name, the name does not start with `_`, and
the method/path pair comes from the rule cascade applied to the
non-`self` arguments and extracted return type. -/
theorem analyzeFunctionForEndpoint_some {f : FuncInfo} {e : AutoDetectedEndpoint}
    (h : analyzeFunctionForEndpoint f = some e) :
    e.func_name = f.name ∧ startsWithStr f.name "_" = false ∧
      determineMethodPath f.name (f.argNames.filter (fun a => a ≠ "self"))
        (returnTypeOf f.ret) f.doc = some (e.method, e.path) := by
  simp only [analyzeFunctionForEndpoint] at h
  iterate 4 (all_goals try split at h)
  all_goals try cases h
  all_goals simp_all

theorem string_slash_append_inj {a b : String} (h : "/" ++ a = "/" ++ b) : a = b := by
  apply String.ext
  have hd := congrArg String.data h
  rw [String.data_append, String.data_append] at hd
  simpa using hd

/-- `env[k] = v` never introduces an entry under a different key. -/
theorem assocSet_no_key (key : String) :
    ∀ (acc : List (String × String)) (k v : String), k ≠ key →
      (∀ w, (key, w) ∉ acc) → ∀ w, (key, w) ∉ assocSet acc k v := by
  intro acc
  induction acc with
  | nil =>
    intro k v hk _ w hw
    simp only [assocSet, List.mem_singleton, Prod.mk.injEq] at hw
    exact hk hw.1.symm
  | cons kv0 rest ih =>
    intro k v hk hacc w hw
    obtain ⟨k0, v0⟩ := kv0
    simp only [assocSet] at hw
    split at hw
    · rcases List.mem_cons.mp hw with h | h
      · rw [Prod.mk.injEq] at h
        exact hk h.1.symm
      · exact hacc w (List.mem_cons_of_mem _ h)
    · rcases List.mem_cons.mp hw with h | h
      · exact hacc w (h ▸ List.mem_cons_self _ _)
      · exact ih k v hk (fun w' hw' => hacc w' (List.mem_cons_of_mem _ hw')) w h

/-- If no line of the file parses to an entry with key `key`, the folded
`env_vars` map never acquires that key. -/
theorem parseEnvFold_no_key (key : String) :
    ∀ (ls : List String) (acc : List (String × String)),
      (∀ raw ∈ ls, ∀ kv, parseEnvLine raw = some kv → kv.1 ≠ key) →
      (∀ w, (key, w) ∉ acc) →
      ∀ w,
        (key, w) ∉
          ls.foldl
            (fun env raw =>
              match parseEnvLine raw with
              | some kv => assocSet env kv.1 kv.2
              | none => env)
            acc := by
  intro ls
  induction ls with
  | nil => intro acc _ hacc w; exact hacc w
  | cons raw rest ih =>
    intro acc hls hacc w
    simp only [List.foldl_cons]
    cases hp : parseEnvLine raw with
    | none =>
      simp only [hp]
      exact ih acc (fun r hr => hls r (List.mem_cons_of_mem _ hr)) hacc w
    | some kv =>
      simp only [hp]
      exact ih _ (fun r hr => hls r (List.mem_cons_of_mem _ hr))
        (assocSet_no_key key acc kv.1 kv.2 (hls raw (List.mem_cons_self _ _) kv hp) hacc) w

/-- `filterMap` keeps exactly the elements on which the function fires. -/
theorem length_filterMap_eq_length_filter {α β : Type} (g : α → Option β) (l : List α) :
    (l.filterMap g).length = (l.filter (fun x => (g x).isSome)).length := by
  induction l with
  | nil => rfl
  | cons x xs ih =>
    cases hx : g x <;>
      simp [List.filterMap_cons, List.filter_cons, hx, ih]

/-! ## Claim C4 -/

/-- Claim C4, counterexample: in auto-detect mode a source file that is
not syntactically valid (`ast.parse` raises, modelled by `parsed = none`)
does not abort the build — `auto_detect_endpoints` catches the
`SyntaxError` and returns, and the build succeeds with zero endpoints,
writing every artifact.  This contradicts the claim that the build
"fails … and aborts before any classification or artifact rendering …
in both declarative and auto-detect modes". -/
theorem c4_counterexample :
    build parseErrorAutoInput = .ok (renderArtifacts parseErrorAutoInput []) ∧
    writtenFiles (build parseErrorAutoInput) ≠ [] := by
  constructor
  · rfl
  · decide

/-- Claim C4 (amended): in declarative mode an exception escaping module
execution (for example a `SyntaxError` on a syntactically invalid file)
aborts the build before any artifact is rendered; in auto-detect mode a
parse error is caught and reported but not fatal — the build continues
with zero auto-detected endpoints and renders every artifact. -/
theorem c4_theorem :
    (∀ (inp : BuildInput) (msg : String),
      inp.mode = .declarative (.error msg) → build inp = .error (.execError msg)) ∧
    (∀ inp : BuildInput,
      inp.mode = .autoDetect none → build inp = .ok (renderArtifacts inp [])) := by
  constructor
  · intro inp msg h
    simp [build, analyzeSource, h]
  · intro inp h
    simp [build, analyzeSource, autoEpsOf, h]

/-- Claim C4, witness: the amended theorem applied to a concrete
declarative build whose execution raised a `SyntaxError`. -/
theorem c4_witness :
    build declarativeErrorInput = .error (.execError "SyntaxError: invalid syntax") :=
  c4_theorem.1 declarativeErrorInput "SyntaxError: invalid syntax" rfl

/-! ## Claim C6 -/

/-- Claim C6: configuration classification is a total, deterministic
function of the key alone — every entry of the configuration mapping
lands in exactly one of the two buckets (`secrets` iff `isSecret` of the
key, `regular_env` iff not), and any key whose uppercased form contains
`API_KEY` is always classified sensitive. -/
theorem c6_theorem :
    (∀ (env : List (String × String)) (k v : String), (k, v) ∈ env →
      (((k, v) ∈ (categorizeEnvVars env).1) ↔ isSecret k = true) ∧
      (((k, v) ∈ (categorizeEnvVars env).2) ↔ isSecret k = false)) ∧
    (∀ k : String, strContains (pyUpper k) "API_KEY" = true → isSecret k = true) := by
  constructor
  · intro env k v hmem
    rw [categorizeEnvVars_eq]
    constructor
    · simp [List.mem_filter, hmem]
    · simp [List.mem_filter, hmem]
  · intro k h
    unfold isSecret
    exact List.any_eq_true.mpr ⟨"API_KEY", by simp [secretPatterns], h⟩

/-- Claim C6, witness: the classification theorem applied to the concrete
entry `OPENAI_API_KEY=sk-abc`, which lands in the sensitive bucket. -/
theorem c6_witness :
    ("OPENAI_API_KEY", "sk-abc") ∈ (categorizeEnvVars [("OPENAI_API_KEY", "sk-abc")]).1 :=
  ((c6_theorem.1 [("OPENAI_API_KEY", "sk-abc")] "OPENAI_API_KEY" "sk-abc"
    (by decide)).1).mpr (by decide)

/-! ## Claim C7 -/

/-- Claim C7: every function the heuristic accepts gets the path
`'/' + func_name.lower().replace('_', '-')`; in particular,
`def get_user(id: int)` yields `GET /get-user` and
`def save_order(order_id: str, amount: float)` yields `POST /save-order`. -/
theorem c7_theorem :
    (∀ (n : String) (args : List String) (rt doc m p : String),
      determineMethodPath n args rt doc = some (m, p) →
      p = "/" ++ underscoreToHyphen (pyLower n)) ∧
    analyzeFunctionForEndpoint ⟨"get_user", ["id"], .absent, ""⟩ =
      some ⟨"get_user", "/get-user", "GET", ["id"], "Any", ""⟩ ∧
    analyzeFunctionForEndpoint ⟨"save_order", ["order_id", "amount"], .absent, ""⟩ =
      some ⟨"save_order", "/save-order", "POST", ["order_id", "amount"], "Any", ""⟩ := by
  refine ⟨fun n args rt doc m p h => determineMethodPath_path h, by decide, by decide⟩

/-- Claim C7, witness: the path-derivation part applied to the accepted
concrete function `get_user`. -/
theorem c7_witness : "/get-user" = "/" ++ underscoreToHyphen (pyLower "get_user") :=
  c7_theorem.1 "get_user" ["id"] "Any" "" "GET" "/get-user" (by decide)

/-! ## Claim C9 -/

/-- Claim C9: in declarative mode, an empty registry after executing the
module makes the build fail with the no-endpoints error, and no artifact
file is written into the output directory. -/
theorem c9_theorem :
    ∀ inp : BuildInput, inp.mode = .declarative (.ok []) →
      build inp = .error .noEndpoints ∧ writtenFiles (build inp) = [] := by
  intro inp h
  have hb : build inp = .error .noEndpoints := by
    simp [build, analyzeSource, h]
  exact ⟨hb, by rw [hb]; rfl⟩

/-- Claim C9, witness: the theorem applied to a concrete declarative
build whose registry stayed empty. -/
theorem c9_witness :
    build emptyRegistryInput = .error .noEndpoints ∧
    writtenFiles (build emptyRegistryInput) = [] :=
  c9_theorem emptyRegistryInput rfl

/-! ## Claim C1 -/

/-- Claim C1, counterexample: the heuristic strategy produces two
endpoint descriptors for the two distinct functions `get_user` and
`GET_USER`, and both descriptors carry the same `(GET, /get-user)` pair —
nothing in `analyze_source` (or in `EndpointRegistry.register`, which
appends unconditionally) deduplicates, so the claimed uniqueness of
`(httpMethod, path)` within one build is false. -/
theorem c1_counterexample :
    (autoDetectEndpoints dupNameTree).map (fun e => e.func_name) = ["get_user", "GET_USER"] ∧
    ¬ ((autoDetectEndpoints dupNameTree).map (fun e => (e.method, e.path))).Nodup := by
  constructor
  · decide
  · decide

/-- Claim C1 (amended): each accepted function occurrence yields exactly
one endpoint descriptor, and the `(httpMethod, path)` pairs of one
heuristic build are pairwise distinct provided the normalised
(lowercased, underscores→hyphens) names of the accepted functions are
pairwise distinct; two distinct functions whose names normalise
identically (and, in declarative mode, repeated registrations, which the
registry keeps as-is) produce duplicate pairs. -/
theorem c1_theorem (tree : StmtList) :
    (autoDetectEndpoints tree).length =
      ((walkFuncs tree).filter (fun f => (analyzeFunctionForEndpoint f).isSome)).length ∧
    (((autoDetectEndpoints tree).map (fun e => underscoreToHyphen (pyLower e.func_name))).Nodup →
      ((autoDetectEndpoints tree).map (fun e => (e.method, e.path))).Nodup) := by
  constructor
  · exact length_filterMap_eq_length_filter _ _
  · intro hnodup
    have hpath : ∀ e ∈ autoDetectEndpoints tree,
        e.path = "/" ++ underscoreToHyphen (pyLower e.func_name) := by
      intro e he
      rcases List.mem_filterMap.mp he with ⟨f, _, hf⟩
      rcases analyzeFunctionForEndpoint_some hf with ⟨hname, _, hdet⟩
      rw [hname]
      exact determineMethodPath_path hdet
    have hinj := List.inj_on_of_nodup_map hnodup
    have hl : (autoDetectEndpoints tree).Nodup := List.Nodup.of_map _ hnodup
    apply List.Nodup.map_on ?_ hl
    intro x hx y hy hxy
    apply hinj hx hy
    have hsnd : x.path = y.path := congrArg Prod.snd hxy
    rw [hpath x hx, hpath y hy] at hsnd
    exact string_slash_append_inj hsnd

/-- Claim C1, witness: on the two scenario functions (whose normalised
names differ) the amended theorem yields pairwise-distinct
`(method, path)` pairs. -/
theorem c1_witness :
    ((autoDetectEndpoints scenarioTree).map (fun e => (e.method, e.path))).Nodup :=
  (c1_theorem scenarioTree).2 (by decide)

/-! ## Claim C5 -/

/-- Claim C5, counterexample: `ast.walk` visits nested function
definitions, so on a module whose only top-level function is the public
zero-argument `outer` containing a nested `def get_data(q)`, the
extraction result is exactly `[get_data]` — the nested function appears
(the claim says it never does) and the result differs from "the
top-level functions minus private ones", which would be `[outer]`. -/
theorem c5_counterexample :
    ((stmtsToList nestedDefTree).filterMap
      (fun s => match s with
        | .funcDef i _ => some i.name
        | .other _ => none)) = ["outer"] ∧
    (autoDetectEndpoints nestedDefTree).map (fun e => e.func_name) = ["get_data"] := by
  constructor
  · decide
  · decide

/-- Claim C5 (amended): functions whose names start with an underscore
never appear in the extraction result, but the walk is not restricted to
top level — every descriptor comes from some walked `FunctionDef` node
(at any nesting depth) accepted by the name filters and the heuristic
cascade. -/
theorem c5_theorem :
    ∀ (tree : StmtList) (e : AutoDetectedEndpoint), e ∈ autoDetectEndpoints tree →
      startsWithStr e.func_name "_" = false ∧
      ∃ f ∈ walkFuncs tree, analyzeFunctionForEndpoint f = some e ∧ e.func_name = f.name := by
  intro tree e he
  rcases List.mem_filterMap.mp he with ⟨f, hf, hfe⟩
  rcases analyzeFunctionForEndpoint_some hfe with ⟨hname, hus, _⟩
  refine ⟨?_, f, hf, hfe, hname⟩
  rw [hname]
  exact hus

/-- Claim C5, witness: the amended theorem applied to the `get_user`
descriptor produced from the scenario module. -/
theorem c5_witness :
    startsWithStr demoGetUserEndpoint.func_name "_" = false ∧
    ∃ f ∈ walkFuncs scenarioTree,
      analyzeFunctionForEndpoint f = some demoGetUserEndpoint ∧
      demoGetUserEndpoint.func_name = f.name :=
  c5_theorem scenarioTree demoGetUserEndpoint (by decide)

/-! ## Claim C2 -/

/-- Claim C2, counterexample: a build whose configuration partition has
no sensitive entry (`FOO=bar` only) still writes the secrets-staging
script `deploy-with-secrets.sh` — `generate_fly_toml` calls
`generate_deployment_script` unconditionally — contradicting the claimed
"emitted if and only if at least one Sensitive entry exists". -/
theorem c2_counterexample :
    (categorizeEnvVars (parseEnvFile noSecretsInput.envLines)).1 = [] ∧
    writtenFiles (build noSecretsInput) =
      ["user_module.py", "flask_app.py", "Dockerfile", "requirements.txt",
       "deploy-with-secrets.sh", "fly.toml"] := by
  constructor
  · decide
  · rfl

/-- Claim C2 (amended): the secrets-staging script is written on every
successful build; when the partition has no Sensitive entry the script
contains no staging command and no sensitive value — it equals the fixed
no-secrets script, independent of the configuration.  The secrets
manifest (`secrets.json`), in contrast, is emitted iff a Sensitive entry
exists. -/
theorem c2_theorem :
    ∀ (inp : BuildInput) (a : ArtifactSet), build inp = .ok a →
      "deploy-with-secrets.sh" ∈ writtenFiles (build inp) ∧
      (a.secretsJson = none ↔ (categorizeEnvVars (parseEnvFile inp.envLines)).1 = []) ∧
      ((categorizeEnvVars (parseEnvFile inp.envLines)).1 = [] →
        a.deployScript = generateDeployScript []) := by
  intro inp a h
  obtain ⟨eps, rfl⟩ : ∃ eps, a = renderArtifacts inp eps := by
    unfold build at h
    split at h
    · exact absurd h (by simp)
    · injection h with h2
      exact ⟨_, h2.symm⟩
  refine ⟨?_, ?_, ?_⟩
  · rw [h]
    simp [writtenFiles]
  · simp only [renderArtifacts]
    by_cases hs : (categorizeEnvVars (parseEnvFile inp.envLines)).1 = [] <;>
      simp [hs, List.isEmpty_iff]
  · intro hs
    simp only [renderArtifacts]
    rw [hs]

/-- Claim C2, witness: the amended theorem applied to a concrete
successful build with a secrets-free configuration. -/
theorem c2_witness :
    "deploy-with-secrets.sh" ∈ writtenFiles (build noSecretsInput) ∧
    (renderArtifacts noSecretsInput [demoEndpoint]).deployScript = generateDeployScript [] := by
  have h := c2_theorem noSecretsInput (renderArtifacts noSecretsInput [demoEndpoint]) rfl
  exact ⟨h.1, h.2.2 (by decide)⟩

/-! ## Claim C3 -/

/-- Claim C3, counterexample: the Public entry `PORT=8080` is omitted
from the manifest's environment table — the env-section loop skips any
key whose uppercase is `PORT` and pins `PORT = "5000"` instead — so "no
Public entry is omitted" is false. -/
theorem c3_counterexample :
    ("PORT", "8080") ∈ (categorizeEnvVars (parseEnvFile ["PORT=8080"])).2 ∧
    ("PORT", "8080") ∉ envSectionPairs (categorizeEnvVars (parseEnvFile ["PORT=8080"])).2 := by
  constructor
  · decide
  · decide

/-- Claim C3 (amended): no Sensitive entry's key ever appears in the
deployment manifest's environment table, and every Public entry appears
in it except an entry whose uppercased key is `PORT`, which is replaced
by the fixed `PORT = "5000"`; the manifest text embeds exactly the
rendered table. -/
theorem c3_theorem :
    (∀ env : List (String × String),
      (∀ kv ∈ (categorizeEnvVars env).1,
        ∀ kv2 ∈ envSectionPairs (categorizeEnvVars env).2, kv.1 ≠ kv2.1) ∧
      (∀ kv ∈ (categorizeEnvVars env).2, pyUpper kv.1 ≠ "PORT" →
        kv ∈ envSectionPairs (categorizeEnvVars env).2)) ∧
    (∀ (inp : BuildInput) (a : ArtifactSet), build inp = .ok a →
      a.flyToml =
        generateFlyToml (underscoreToHyphen inp.originalName)
          (renderEnvSection
            (envSectionPairs (categorizeEnvVars (parseEnvFile inp.envLines)).2))) := by
  constructor
  · intro env
    rw [categorizeEnvVars_eq]
    constructor
    · intro kv hkv kv2 hkv2 heq
      obtain ⟨hkenv, hksec⟩ := List.mem_filter.mp hkv
      unfold envSectionPairs at hkv2
      rcases List.mem_cons.mp hkv2 with h2 | h2
      · rw [h2] at heq
        rw [heq] at hksec
        exact absurd hksec (by decide)
      · obtain ⟨h3, _⟩ := List.mem_filter.mp h2
        obtain ⟨_, h4⟩ := List.mem_filter.mp h3
        rw [heq] at hksec
        simp [hksec] at h4
    · intro kv hkv hport
      unfold envSectionPairs
      apply List.mem_cons_of_mem
      apply List.mem_filter.mpr
      refine ⟨hkv, ?_⟩
      simpa using hport
  · intro inp a h
    obtain ⟨eps, rfl⟩ : ∃ eps, a = renderArtifacts inp eps := by
      unfold build at h
      split at h
      · exact absurd h (by simp)
      · injection h with h2
        exact ⟨_, h2.symm⟩
    rfl

/-- Claim C3, witness: the amended theorem applied to a concrete
partition — the Public entry `FOO=bar` appears in the table. -/
theorem c3_witness :
    ("FOO", "bar") ∈
      envSectionPairs (categorizeEnvVars [("OPENAI_API_KEY", "sk-abc"), ("FOO", "bar")]).2 :=
  (c3_theorem.1 [("OPENAI_API_KEY", "sk-abc"), ("FOO", "bar")]).2 ("FOO", "bar")
    (by decide) (by decide)

/-! ## Claim C8 -/

/-- Claim C8: all renders are deterministic — two builds of the same
input produce byte-identical server entry point (`flask_app.py`), image
definition (`Dockerfile`) and deployment manifest (`fly.toml`).  In this
embedding every renderer is a pure function of the build input, so the
two runs' artifacts coincide. -/
theorem c8_theorem :
    ∀ (inp : BuildInput) (a1 a2 : ArtifactSet),
      build inp = .ok a1 → build inp = .ok a2 →
      a1.flaskApp = a2.flaskApp ∧ a1.dockerfile = a2.dockerfile ∧
        a1.flyToml = a2.flyToml := by
  intro inp a1 a2 h1 h2
  rw [h1] at h2
  injection h2 with h
  rw [h]
  exact ⟨rfl, rfl, rfl⟩

/-- Claim C8, witness: the determinism theorem applied to two runs of a
concrete successful build. -/
theorem c8_witness :
    (renderArtifacts noSecretsInput [demoEndpoint]).flaskApp =
      (renderArtifacts noSecretsInput [demoEndpoint]).flaskApp ∧
    (renderArtifacts noSecretsInput [demoEndpoint]).dockerfile =
      (renderArtifacts noSecretsInput [demoEndpoint]).dockerfile ∧
    (renderArtifacts noSecretsInput [demoEndpoint]).flyToml =
      (renderArtifacts noSecretsInput [demoEndpoint]).flyToml :=
  c8_theorem noSecretsInput (renderArtifacts noSecretsInput [demoEndpoint])
    (renderArtifacts noSecretsInput [demoEndpoint]) rfl rfl

/-! ## Claim C10 -/

/-- Claim C10: a `KEY=value` line whose value is empty after whitespace
and quote stripping is dropped by `_read_env_file` (first conjunct), and
a key whose every line is dropped appears in neither partition, nor in
the manifest's environment table (unless the pinned `PORT`), regardless
of whether the key matches a sensitive pattern (second conjunct). -/
theorem c10_theorem :
    (∀ raw : String,
      stripAllChar '\x27' (stripAllChar '"' (pyStrip ⟨charsAfter '=' (pyStrip raw).data⟩)) = "" →
      parseEnvLine raw = none) ∧
    (∀ (lines : List String) (key : String),
      (∀ raw ∈ lines, ∀ kv, parseEnvLine raw = some kv → kv.1 ≠ key) →
      (∀ v, (key, v) ∉ parseEnvFile lines) ∧
      (∀ v, (key, v) ∉ (categorizeEnvVars (parseEnvFile lines)).1) ∧
      (∀ v, (key, v) ∉ (categorizeEnvVars (parseEnvFile lines)).2) ∧
      (pyUpper key ≠ "PORT" →
        ∀ v, (key, v) ∉ envSectionPairs (categorizeEnvVars (parseEnvFile lines)).2)) := by
  constructor
  · intro raw hval
    simp [parseEnvLine, hval, ite_self]
  · intro lines key hkey
    have hmain : ∀ v, (key, v) ∉ parseEnvFile lines :=
      parseEnvFold_no_key key lines [] hkey (by simp)
    refine ⟨hmain, ?_, ?_, ?_⟩
    · intro v hv
      rw [categorizeEnvVars_eq] at hv
      exact hmain v (List.mem_filter.mp hv).1
    · intro v hv
      rw [categorizeEnvVars_eq] at hv
      exact hmain v (List.mem_filter.mp hv).1
    · intro hport v hv
      unfold envSectionPairs at hv
      rcases List.mem_cons.mp hv with h | h
      · rw [Prod.mk.injEq] at h
        apply hport
        rw [h.1]
        decide
      · rw [categorizeEnvVars_eq] at h
        obtain ⟨h3, _⟩ := List.mem_filter.mp h
        exact hmain v (List.mem_filter.mp h3).1

/-- Claim C10, witness: `API_KEY=` is dropped, and `API_KEY` then appears
in neither the sensitive nor the public partition of that file. -/
theorem c10_witness :
    parseEnvLine "API_KEY=" = none ∧
    ("API_KEY", "x") ∉ (categorizeEnvVars (parseEnvFile ["API_KEY="])).1 ∧
    ("API_KEY", "x") ∉ (categorizeEnvVars (parseEnvFile ["API_KEY="])).2 := by
  have hdrop : ∀ raw ∈ ["API_KEY="], ∀ kv, parseEnvLine raw = some kv → kv.1 ≠ "API_KEY" := by
    intro raw hraw kv hkv
    simp only [List.mem_singleton] at hraw
    subst hraw
    rw [show parseEnvLine "API_KEY=" = none from by decide] at hkv
    exact absurd hkv (by simp)
  have h := c10_theorem.2 ["API_KEY="] "API_KEY" hdrop
  exact ⟨c10_theorem.1 "API_KEY=" (by decide), h.2.1 "x", h.2.2.1 "x"⟩

end Getmethatdawg
